import Mathlib

/-!
Verification of the batch-normalization, VGG and NiN snippets from the
d2l notebooks (`chapter_convolutional-modern/batch-norm.ipynb`,
`vgg.ipynb`, `nin.ipynb`).

The MXNet tensors handled by `batch_norm` are embedded as real-valued
arrays indexed by `Fin`.  The parameters `gamma`, `beta`, `moving_mean`
and `moving_var` all have the broadcastable shapes `(1, d)` (for 2-D
inputs) or `(1, d, 1, 1)` (for 4-D inputs); both are determined by their
single feature axis of length `d`, so they are embedded as `Fin d → ℝ`
and MXNet broadcasting against a data tensor is elementwise application
along that axis.  The feature length `d` is carried at the type level,
which makes the framework's broadcasting total: the only failure that
remains is the one raised by the notebook's own `assert` statement.
-/

noncomputable section

/-- An MXNet `NDArray` as used by `batch_norm`, with feature/channel axis
of length `d`.  `t2 n data` is a `(n, d)` array (fully-connected case),
`t4 n h w data` is a `(n, d, h, w)` array (convolutional case, channel
axis second).  `tOther k hk` stands for an array of any other rank `k`;
the notebook's `assert` rejects such inputs in training mode before their
entries are ever read, so the entries are not carried. -/
inductive Tensor (d : ℕ) where
  | t2 (n : ℕ) (data : Fin n → Fin d → ℝ)
  | t4 (n h w : ℕ) (data : Fin n → Fin d → Fin h → Fin w → ℝ)
  | tOther (ndim : ℕ) (hk : ndim ≠ 2 ∧ ndim ≠ 4)

/-- The rank of the array, `len(X.shape)` in the notebook. -/
def Tensor.ndim {d : ℕ} : Tensor d → ℕ
  | .t2 _ _ => 2
  | .t4 _ _ _ _ => 4
  | .tOther k _ => k

/-- Elementwise combination of an array with a vector of broadcastable
shape `(1, d)` / `(1, d, 1, 1)`: MXNet broadcasting applies `f` along the
feature axis.  On an array of unmodelled rank the result is an array of
the same rank whose entries are likewise not modelled. -/
def bmap2 {d : ℕ} (f : ℝ → ℝ → ℝ) : Tensor d → (Fin d → ℝ) → Tensor d
  | .t2 n data, v => .t2 n (fun i j => f (data i j) (v j))
  | .t4 n h w data, v => .t4 n h w (fun i c p q => f (data i c p q) (v c))
  | .tOther k hk, _ => .tOther k hk

/-- Per-feature batch mean of a `(n, d)` array: `X.mean(axis=0)`. -/
def mean2 (n d : ℕ) (data : Fin n → Fin d → ℝ) : Fin d → ℝ :=
  fun j => (∑ i, data i j) / n

/-- Per-feature batch variance of a `(n, d)` array:
`((X - mean) ** 2).mean(axis=0)` (broadcast subtraction, square, mean
over axis 0). -/
def var2 (n d : ℕ) (data : Fin n → Fin d → ℝ) : Fin d → ℝ :=
  fun j => (∑ i, (data i j - mean2 n d data j) ^ 2) / n

/-- Per-channel mean of a `(n, d, h, w)` array over the batch and both
spatial axes: `X.mean(axis=(0, 2, 3), keepdims=True)`, kept in the
broadcastable shape `(1, d, 1, 1)`. -/
def mean4 (n d h w : ℕ) (data : Fin n → Fin d → Fin h → Fin w → ℝ) : Fin d → ℝ :=
  fun c => (∑ i, ∑ p, ∑ q, data i c p q) / ((n * h * w : ℕ) : ℝ)

/-- Per-channel variance of a `(n, d, h, w)` array over axes 0, 2 and 3:
`((X - mean) ** 2).mean(axis=(0, 2, 3), keepdims=True)`. -/
def var4 (n d h w : ℕ) (data : Fin n → Fin d → Fin h → Fin w → ℝ) : Fin d → ℝ :=
  fun c => (∑ i, ∑ p, ∑ q, (data i c p q - mean4 n d h w data c) ^ 2) / ((n * h * w : ℕ) : ℝ)

/-- Elementwise divisor of the standardization step: `nd.sqrt(var + eps)`. -/
def stdDivisor {d : ℕ} (v : Fin d → ℝ) (eps : ℝ) : Fin d → ℝ :=
  fun j => Real.sqrt (v j + eps)

/-- Scale-and-shift step `Y = gamma * X_hat + beta`. -/
def scaleShift {d : ℕ} (gamma beta : Fin d → ℝ) (X_hat : Tensor d) : Tensor d :=
  bmap2 (· + ·) (bmap2 (fun x g => g * x) X_hat gamma) beta

/-- The failure raised by the snippet's own `assert len(X.shape) in (2, 4)`.
The framework's native errors do not arise in this embedding: carrying the
feature length `d` in the types makes every broadcast well-shaped. -/
inductive BNError where
  | repoAssertion
  deriving DecidableEq

/-- The function `batch_norm(X, gamma, beta, moving_mean, moving_var,
eps, momentum)` of `batch-norm.ipynb`.  The Boolean `training` stands for
`autograd.is_training()`.  Returns `(Y, moving_mean, moving_var)`, or the
`AssertionError` of the snippet's own `assert`. -/
def batch_norm (d : ℕ) (X : Tensor d) (gamma beta moving_mean moving_var : Fin d → ℝ)
    (eps momentum : ℝ) (training : Bool) :
    Except BNError (Tensor d × (Fin d → ℝ) × (Fin d → ℝ)) :=
  if !training then
    -- prediction mode: standardize with the incoming moving statistics
    let X_hat := bmap2 (· / ·) (bmap2 (· - ·) X moving_mean) (stdDivisor moving_var eps)
    .ok (scaleShift gamma beta X_hat, moving_mean, moving_var)
  else
    match X with
    | .t2 n data =>
        let mean := mean2 n d data
        let var := var2 n d data
        let X_hat := bmap2 (· / ·) (bmap2 (· - ·) (.t2 n data) mean) (stdDivisor var eps)
        let moving_mean := fun j => momentum * moving_mean j + (1 - momentum) * mean j
        let moving_var := fun j => momentum * moving_var j + (1 - momentum) * var j
        .ok (scaleShift gamma beta X_hat, moving_mean, moving_var)
    | .t4 n h w data =>
        let mean := mean4 n d h w data
        let var := var4 n d h w data
        let X_hat := bmap2 (· / ·) (bmap2 (· - ·) (.t4 n h w data) mean) (stdDivisor var eps)
        let moving_mean := fun c => momentum * moving_mean c + (1 - momentum) * mean c
        let moving_var := fun c => momentum * moving_var c + (1 - momentum) * var c
        .ok (scaleShift gamma beta X_hat, moving_mean, moving_var)
    | .tOther _ _ => .error .repoAssertion  -- assert len(X.shape) in (2, 4)

/-- The custom `BatchNorm` layer (class `BatchNorm(nn.Block)`): the scale
parameter `gamma`, the shift parameter `beta`, the moving statistics, and
the common MXNet shape of all four parameter arrays. -/
structure BatchNorm (num_features : ℕ) where
  shape : List ℕ
  gamma : Fin num_features → ℝ
  beta : Fin num_features → ℝ
  moving_mean : Fin num_features → ℝ
  moving_var : Fin num_features → ℝ

/-- Parameter shape chosen by `BatchNorm.__init__`: `(1, num_features)`
when `num_dims == 2`, and `(1, num_features, 1, 1)` otherwise. -/
def paramShape (num_features num_dims : ℕ) : List ℕ :=
  if num_dims = 2 then [1, num_features] else [1, num_features, 1, 1]

/-- Constructor `BatchNorm.__init__(num_features, num_dims)`: `gamma` is
initialized with `init.One()`, `beta` with `init.Zero()`, and the moving
statistics with `nd.zeros(shape)`. -/
def BatchNorm.init (num_features num_dims : ℕ) : BatchNorm num_features :=
  { shape := paramShape num_features num_dims
    gamma := fun _ => 1
    beta := fun _ => 0
    moving_mean := fun _ => 0
    moving_var := fun _ => 0 }

/-- Method `BatchNorm.forward(X)`: calls `batch_norm` with `eps=1e-5` and
`momentum=0.9` and saves the returned moving statistics back into the
layer.  (The device-context copy that precedes the call only moves the
arrays between CPU and GPU and does not change any value.) -/
def BatchNorm.forward {d : ℕ} (l : BatchNorm d) (X : Tensor d) (training : Bool) :
    Except BNError (Tensor d × BatchNorm d) :=
  match batch_norm d X l.gamma l.beta l.moving_mean l.moving_var (1 / 100000) (9 / 10) training with
  | .error e => .error e
  | .ok (Y, mm, mv) => .ok (Y, { l with moving_mean := mm, moving_var := mv })

/-- Helper projecting the output array `Y` out of a `batch_norm` result
(defaulting to a rank-0 array on an error). -/
def resultY {d : ℕ} : Except BNError (Tensor d × (Fin d → ℝ) × (Fin d → ℝ)) → Tensor d
  | .ok (Y, _, _) => Y
  | .error _ => .tOther 0 (by simp)

/-- Helper reading entry `(i, c, p, q)` of a rank-4 array, defaulting
to `0` out of range or on another rank. -/
def entry4 {d : ℕ} : Tensor d → ℕ → ℕ → ℕ → ℕ → ℝ
  | .t4 n h w data, i, c, p, q =>
      if hb : i < n ∧ c < d ∧ p < h ∧ q < w then
        data ⟨i, hb.1⟩ ⟨c, hb.2.1⟩ ⟨p, hb.2.2.1⟩ ⟨q, hb.2.2.2⟩
      else 0
  | _, _, _, _, _ => 0

/-- Per-position mean of a `(n, d, h, w)` array over the batch axis
(axis 0) alone, as claim C4 reads the statistics.  Unlike `mean4`, it
keeps a separate statistic at every `(channel, row, column)` position. -/
def meanAxis0 (n d h w : ℕ) (data : Fin n → Fin d → Fin h → Fin w → ℝ) :
    Fin d → Fin h → Fin w → ℝ :=
  fun c p q => (∑ i, data i c p q) / n

/-- Per-position variance over the batch axis (axis 0) alone, as claim C4
reads the statistics. -/
def varAxis0 (n d h w : ℕ) (data : Fin n → Fin d → Fin h → Fin w → ℝ) :
    Fin d → Fin h → Fin w → ℝ :=
  fun c p q => (∑ i, (data i c p q - meanAxis0 n d h w data c p q) ^ 2) / n

/-- Standardization of a `(n, d, h, w)` array with the axis-0-only
statistics of claim C4. -/
def xhatAxis0 (n d h w : ℕ) (data : Fin n → Fin d → Fin h → Fin w → ℝ) (eps : ℝ) :
    Fin n → Fin d → Fin h → Fin w → ℝ :=
  fun i c p q =>
    (data i c p q - meanAxis0 n d h w data c p q) /
      Real.sqrt (varAxis0 n d h w data c p q + eps)

/-- Concrete `(1, 1, 1, 2)` input used to separate the statistics over
axes `(0, 2, 3)` from statistics over axis 0 alone: its two entries along
the last spatial axis are `0` and `2`. -/
def c4data : Fin 1 → Fin 1 → Fin 1 → Fin 2 → ℝ :=
  fun _ _ _ q => if q.val = 0 then 0 else 2

/-- Constant-one parameter vector over one feature. -/
def oneVec : Fin 1 → ℝ := fun _ => 1

/-- Constant-zero parameter vector over one feature. -/
def zeroVec : Fin 1 → ℝ := fun _ => 0

end

/-- Thin symbolic model of the MXNet Gluon layer constructors used by
`vgg.ipynb` and `nin.ipynb`.  `conv2D ch k s p act` is
`nn.Conv2D(ch, kernel_size=k, strides=s, padding=p, activation=act)`
(MXNet defaults: `strides=1`, `padding=0`, `activation=None`);
`maxPool2D ps s` is `nn.MaxPool2D(pool_size=ps, strides=s)`; `dense` and
`dropout` are `nn.Dense` and `nn.Dropout`; `seqBlock` is a nested
`nn.Sequential` container. -/
inductive Layer where
  | conv2D (channels kernel strides padding : ℕ) (activation : Option String)
  | maxPool2D (pool strides : ℕ)
  | dense (units : ℕ) (activation : Option String)
  | dropout (rate : ℚ)
  | seqBlock (layers : List Layer)

/-- The function `vgg_block(num_convs, num_channels)` of `vgg.ipynb`: an
empty `nn.Sequential()` grown by the `for _ in range(num_convs)` loop
adding one 3x3 padding-1 ReLU convolution per iteration, then one final
`nn.MaxPool2D(pool_size=2, strides=2)`. -/
def vgg_block (num_convs num_channels : ℕ) : List Layer :=
  ((List.range num_convs).foldl
      (fun blk _ => blk ++ [Layer.conv2D num_channels 3 1 1 (some "relu")]) [])
    ++ [Layer.maxPool2D 2 2]

/-- The function `nin_block(num_channels, kernel_size, strides, padding)`
of `nin.ipynb`: one convolution with the given geometry followed by two
1x1 convolutions, all ReLU-activated with `num_channels` channels. -/
def nin_block (num_channels kernel_size strides padding : ℕ) : List Layer :=
  [Layer.conv2D num_channels kernel_size strides padding (some "relu"),
   Layer.conv2D num_channels 1 1 0 (some "relu"),
   Layer.conv2D num_channels 1 1 0 (some "relu")]

/-- The function `vgg(conv_arch)` of `vgg.ipynb`: one `vgg_block` per
`(num_convs, num_channels)` pair of the architecture table, followed by
the fixed fully-connected part. -/
def vgg (ca : List (ℕ × ℕ)) : List Layer :=
  (ca.foldl (fun net p => net ++ [Layer.seqBlock (vgg_block p.1 p.2)]) [])
    ++ [Layer.dense 4096 (some "relu"), Layer.dropout (1 / 2),
        Layer.dense 4096 (some "relu"), Layer.dropout (1 / 2),
        Layer.dense 10 none]

/-- The architecture table `conv_arch` of `vgg.ipynb`. -/
def conv_arch : List (ℕ × ℕ) := [(1, 64), (1, 128), (2, 256), (2, 512), (2, 512)]

/-- Test whether a layer is a convolutional layer. -/
def Layer.isConv : Layer → Bool
  | .conv2D _ _ _ _ _ => true
  | _ => false

/-- Number of convolutional layers at the top level of a container. -/
def countConv (ls : List Layer) : ℕ :=
  (ls.filter Layer.isConv).length

/-- Number of convolutional layers inside a layer when it is a
`seqBlock`, and `0` otherwise. -/
def blockConvCount : Layer → ℕ
  | .seqBlock ls => countConv ls
  | _ => 0

/-- C1: for every 2-D input `X` in training mode, `batch_norm` returns
`Y = gamma * X_hat + beta` with `X_hat = (X - mean) / sqrt(var + eps)`,
where `mean` is the per-feature mean of `X` over axis 0 and `var` the
per-feature mean of `(X - mean)^2` over axis 0: it standardizes over the
batch axis and then rescales and shifts by `gamma` and `beta`. -/
theorem C1_batch_norm_train_2d (n d : ℕ) (X : Fin n → Fin d → ℝ)
    (gamma beta moving_mean moving_var : Fin d → ℝ) (eps momentum : ℝ) :
    batch_norm d (.t2 n X) gamma beta moving_mean moving_var eps momentum true =
      .ok (.t2 n (fun i j =>
            gamma j * ((X i j - (∑ i1, X i1 j) / n) /
              Real.sqrt ((∑ i1, (X i1 j - (∑ i2, X i2 j) / n) ^ 2) / n + eps)) + beta j),
          fun j => momentum * moving_mean j + (1 - momentum) * ((∑ i1, X i1 j) / n),
          fun j => momentum * moving_var j
            + (1 - momentum) * ((∑ i1, (X i1 j - (∑ i2, X i2 j) / n) ^ 2) / n)) := rfl

/-- C2: in prediction mode `batch_norm` is pure formula selection: for
every input it returns `moving_mean` and `moving_var` unchanged, and on
2-D and 4-D inputs it standardizes `X` with the incoming moving
statistics (batch statistics are computed only in training mode). -/
theorem C2_batch_norm_predict_frame (d : ℕ) :
    (∀ (X : Tensor d) (gamma beta mm mv : Fin d → ℝ) (eps momentum : ℝ),
      ∃ Y : Tensor d,
        batch_norm d X gamma beta mm mv eps momentum false = .ok (Y, mm, mv))
  ∧ (∀ (n : ℕ) (X : Fin n → Fin d → ℝ) (gamma beta mm mv : Fin d → ℝ) (eps momentum : ℝ),
      batch_norm d (.t2 n X) gamma beta mm mv eps momentum false =
        .ok (.t2 n (fun i j =>
              gamma j * ((X i j - mm j) / Real.sqrt (mv j + eps)) + beta j), mm, mv))
  ∧ (∀ (n h w : ℕ) (X : Fin n → Fin d → Fin h → Fin w → ℝ)
        (gamma beta mm mv : Fin d → ℝ) (eps momentum : ℝ),
      batch_norm d (.t4 n h w X) gamma beta mm mv eps momentum false =
        .ok (.t4 n h w (fun i c p q =>
              gamma c * ((X i c p q - mm c) / Real.sqrt (mv c + eps)) + beta c), mm, mv)) := by
  refine ⟨fun X gamma beta mm mv eps momentum => ?_,
          fun _ _ _ _ _ _ _ _ => rfl, fun _ _ _ _ _ _ _ _ _ _ => rfl⟩
  cases X with
  | t2 n data => exact ⟨_, rfl⟩
  | t4 n h w data => exact ⟨_, rfl⟩
  | tOther k hk => exact ⟨_, rfl⟩

/-- C3 counterexample: on a rank-3 input in training mode, the snippet's
own `assert len(X.shape) in (2, 4)` raises: the failure is a check
authored in this repository, not the framework's native error, refuting
"no check ... raised by code authored in this repository". -/
theorem C3_counterexample :
    batch_norm 1 (.tOther 3 (by decide)) oneVec zeroVec zeroVec zeroVec 1 (1 / 2) true =
      .error .repoAssertion := rfl

/-- C3 amended: except for the single `assert` that a training-mode input
is 2-D or 4-D, the snippet performs no error handling of its own: a
repo-authored failure occurs exactly when training mode meets an input of
rank other than 2 and 4, and never in prediction mode. -/
theorem C3_only_assert_fails (d : ℕ) (X : Tensor d)
    (gamma beta mm mv : Fin d → ℝ) (eps momentum : ℝ) (training : Bool) :
    batch_norm d X gamma beta mm mv eps momentum training = .error .repoAssertion ↔
      training = true ∧ X.ndim ≠ 2 ∧ X.ndim ≠ 4 := by
  cases training with
  | false => cases X <;> simp [batch_norm, Tensor.ndim]
  | true =>
      cases X with
      | t2 n data => simp [batch_norm, Tensor.ndim]
      | t4 n h w data => simp [batch_norm, Tensor.ndim]
      | tOther k hk => simpa [batch_norm, Tensor.ndim] using hk

/-- C4 amended: for every 4-D input in training mode the statistics used
for standardization are the per-channel mean and variance over the batch
axis AND both spatial axes (`axis=(0, 2, 3)`), not over the batch axis
alone. -/
theorem C4_batch_norm_train_4d (n d h w : ℕ) (X : Fin n → Fin d → Fin h → Fin w → ℝ)
    (gamma beta moving_mean moving_var : Fin d → ℝ) (eps momentum : ℝ) :
    batch_norm d (.t4 n h w X) gamma beta moving_mean moving_var eps momentum true =
      .ok (.t4 n h w (fun i c p q =>
            gamma c * ((X i c p q - (∑ i1, ∑ p1, ∑ q1, X i1 c p1 q1) / ((n * h * w : ℕ) : ℝ)) /
              Real.sqrt ((∑ i1, ∑ p1, ∑ q1,
                  (X i1 c p1 q1 - (∑ i2, ∑ p2, ∑ q2, X i2 c p2 q2) / ((n * h * w : ℕ) : ℝ)) ^ 2)
                / ((n * h * w : ℕ) : ℝ) + eps)) + beta c),
          fun c => momentum * moving_mean c + (1 - momentum) * mean4 n d h w X c,
          fun c => momentum * moving_var c + (1 - momentum) * var4 n d h w X c) := rfl

/-- C4 counterexample: on the concrete `(1, 1, 1, 2)` training input with
entries `0` and `2` (`gamma = 1`, `beta = 0`, `eps = 3`), the code's
output entry at position `(0, 0, 0, 1)` is `1/2`, while standardizing
with statistics over the batch axis (axis 0) alone — as the claim states
— would give `0` there: the claim's reading is refuted. -/
theorem C4_counterexample :
    entry4 (resultY (batch_norm 1 (.t4 1 1 2 c4data)
        oneVec zeroVec zeroVec zeroVec 3 (1 / 2) true)) 0 0 0 1 = 1 / 2
  ∧ oneVec 0 * xhatAxis0 1 1 1 2 c4data 3 0 0 0 1 + zeroVec 0 = 0
  ∧ (1 / 2 : ℝ) ≠ 0 := by
  have h4 : Real.sqrt 4 = 2 := by
    rw [show (4 : ℝ) = 2 ^ 2 by norm_num]
    exact Real.sqrt_sq (by norm_num)
  refine ⟨?_, ?_, by norm_num⟩
  · show entry4 (resultY (batch_norm 1 (.t4 1 1 2 c4data)
        oneVec zeroVec zeroVec zeroVec 3 (1 / 2) true)) 0 0 0 1 = 1 / 2
    simp only [batch_norm, resultY, scaleShift, bmap2, entry4, mean4, var4, stdDivisor,
      c4data, oneVec, zeroVec, Fin.sum_univ_two, Fin.sum_univ_one]
    norm_num [h4]
  · simp only [xhatAxis0, meanAxis0, varAxis0, c4data, oneVec, zeroVec, Fin.sum_univ_one]
    norm_num

/-- Helper: a fold that appends one fixed element per step produces that
element replicated once per step. -/
theorem foldl_append_replicate {α β : Type} (x : α) :
    ∀ (l : List β) (acc : List α),
      l.foldl (fun b _ => b ++ [x]) acc = acc ++ List.replicate l.length x := by
  intro l
  induction l with
  | nil => intro acc; simp
  | cons a t ih =>
      intro acc
      simp only [List.foldl_cons, List.length_cons, List.replicate_succ, ih]
      simp

/-- Helper: a fold that appends the image of each element produces the
map of the list. -/
theorem foldl_append_map {α β : Type} (g : α → β) :
    ∀ (l : List α) (acc : List β),
      l.foldl (fun net p => net ++ [g p]) acc = acc ++ l.map g := by
  intro l
  induction l with
  | nil => intro acc; simp
  | cons a t ih =>
      intro acc
      simp only [List.foldl_cons, List.map_cons, ih]
      simp

/-- C5: `vgg_block(num_convs, num_channels)` is, in order, exactly
`num_convs` convolutions (each `num_channels` channels, 3x3 kernel,
padding 1, ReLU) followed by exactly one 2x2 stride-2 max pooling
layer, the convolutions appended by the loop. -/
theorem C5_vgg_block_layers (num_convs num_channels : ℕ) :
    vgg_block num_convs num_channels =
      List.replicate num_convs (Layer.conv2D num_channels 3 1 1 (some "relu"))
        ++ [Layer.maxPool2D 2 2] := by
  unfold vgg_block
  rw [foldl_append_replicate]
  simp

/-- C6: `nin_block(num_channels, kernel_size, strides, padding)` is
exactly three convolutions: one with the given kernel size, strides and
padding, then two pointwise (1x1) ones, all with `num_channels` output
channels and ReLU activation. -/
theorem C6_nin_block_layers (num_channels kernel_size strides padding : ℕ) :
    nin_block num_channels kernel_size strides padding =
      [Layer.conv2D num_channels kernel_size strides padding (some "relu"),
       Layer.conv2D num_channels 1 1 0 (some "relu"),
       Layer.conv2D num_channels 1 1 0 (some "relu")]
    ∧ (nin_block num_channels kernel_size strides padding).length = 3 :=
  ⟨rfl, rfl⟩

/-- C7: `vgg(conv_arch)` is one `vgg_block` per `(num_convs,
num_channels)` pair in list order followed by the fixed fully-connected
part `Dense(4096)-Dropout(0.5)-Dense(4096)-Dropout(0.5)-Dense(10)`; with
the notebook's `conv_arch` the convolutional part is 5 blocks holding 8
convolutional layers in total. -/
theorem C7_vgg_structure :
    (∀ ca : List (ℕ × ℕ), vgg ca =
        ca.map (fun p => Layer.seqBlock (vgg_block p.1 p.2))
          ++ [Layer.dense 4096 (some "relu"), Layer.dropout (1 / 2),
              Layer.dense 4096 (some "relu"), Layer.dropout (1 / 2),
              Layer.dense 10 none])
  ∧ conv_arch.length = 5
  ∧ (vgg conv_arch).take 5 =
      conv_arch.map (fun p => Layer.seqBlock (vgg_block p.1 p.2))
  ∧ (((vgg conv_arch).take 5).map blockConvCount).sum = 8 := by
  have hvgg : ∀ ca : List (ℕ × ℕ), vgg ca =
      ca.map (fun p => Layer.seqBlock (vgg_block p.1 p.2))
        ++ [Layer.dense 4096 (some "relu"), Layer.dropout (1 / 2),
            Layer.dense 4096 (some "relu"), Layer.dropout (1 / 2),
            Layer.dense 10 none] := by
    intro ca
    unfold vgg
    rw [foldl_append_map]
    simp
  refine ⟨hvgg, rfl, ?_, ?_⟩
  · rw [hvgg]
    rfl
  · rw [hvgg]
    rfl

/-- C8: in training mode the moving averages returned by `batch_norm`
are `momentum * old + (1 - momentum) * batch_statistic` (for 2-D and 4-D
inputs), and `BatchNorm.forward` always calls `batch_norm` with
`eps = 1e-5` and `momentum = 0.9` and stores the returned averages back
into the layer. -/
theorem C8_moving_average_update :
    (∀ (d n : ℕ) (X : Fin n → Fin d → ℝ) (gamma beta mm mv : Fin d → ℝ) (eps momentum : ℝ),
      ∃ Y : Tensor d,
        batch_norm d (.t2 n X) gamma beta mm mv eps momentum true =
          .ok (Y, fun j => momentum * mm j + (1 - momentum) * mean2 n d X j,
               fun j => momentum * mv j + (1 - momentum) * var2 n d X j))
  ∧ (∀ (d n h w : ℕ) (X : Fin n → Fin d → Fin h → Fin w → ℝ)
        (gamma beta mm mv : Fin d → ℝ) (eps momentum : ℝ),
      ∃ Y : Tensor d,
        batch_norm d (.t4 n h w X) gamma beta mm mv eps momentum true =
          .ok (Y, fun c => momentum * mm c + (1 - momentum) * mean4 n d h w X c,
               fun c => momentum * mv c + (1 - momentum) * var4 n d h w X c))
  ∧ (∀ (d : ℕ) (l : BatchNorm d) (X : Tensor d) (training : Bool),
      BatchNorm.forward l X training =
        (batch_norm d X l.gamma l.beta l.moving_mean l.moving_var
            (1 / 100000) (9 / 10) training).map
          (fun r => (r.1, { l with moving_mean := r.2.1, moving_var := r.2.2 }))) := by
  refine ⟨fun _ _ _ _ _ _ _ _ _ => ⟨_, rfl⟩,
          fun _ _ _ _ _ _ _ _ _ _ _ => ⟨_, rfl⟩,
          fun d l X training => ?_⟩
  cases hbn : batch_norm d X l.gamma l.beta l.moving_mean l.moving_var
      (1 / 100000) (9 / 10) training with
  | error e =>
      unfold BatchNorm.forward
      rw [hbn]
      rfl
  | ok r =>
      obtain ⟨Y, mm, mv⟩ := r
      unfold BatchNorm.forward
      rw [hbn]
      rfl

/-- C9: after `BatchNorm.__init__(num_features, num_dims)`, `gamma` is
all ones and `beta` all zeros (so scale-and-shift is initially the
identity on `X_hat`), the moving statistics are all zeros, and the
parameter shape is `(1, num_features)` for `num_dims == 2` and
`(1, num_features, 1, 1)` for every other `num_dims`. -/
theorem C9_batchnorm_initialization (num_features num_dims : ℕ) :
    (BatchNorm.init num_features num_dims).gamma = (fun _ => 1)
  ∧ (BatchNorm.init num_features num_dims).beta = (fun _ => 0)
  ∧ (BatchNorm.init num_features num_dims).moving_mean = (fun _ => 0)
  ∧ (BatchNorm.init num_features num_dims).moving_var = (fun _ => 0)
  ∧ (∀ X_hat : Tensor num_features,
      scaleShift (BatchNorm.init num_features num_dims).gamma
        (BatchNorm.init num_features num_dims).beta X_hat = X_hat)
  ∧ (BatchNorm.init num_features 2).shape = [1, num_features]
  ∧ (num_dims ≠ 2 →
      (BatchNorm.init num_features num_dims).shape = [1, num_features, 1, 1]) := by
  refine ⟨rfl, rfl, rfl, rfl, fun X_hat => ?_, rfl, fun hnd => ?_⟩
  · cases X_hat <;> simp [scaleShift, bmap2, BatchNorm.init]
  · simp [BatchNorm.init, paramShape, hnd]

/-- C9 witness: at `num_features = 3`, `num_dims = 4` the non-2-D shape
branch yields `(1, 3, 1, 1)`. -/
theorem C9_witness : (BatchNorm.init 3 4).shape = [1, 3, 1, 1] :=
  (C9_batchnorm_initialization 3 4).2.2.2.2.2.2 (by decide)

/-- C10: with `eps > 0` and an elementwise non-negative variance
estimate, the standardization divisor `sqrt(var + eps)` is strictly
positive for the moving variance (prediction mode) and for the batch
variances of both the 2-D and the 4-D training branches (which are
non-negative by construction): the standardization never divides by
zero. -/
theorem C10_divisor_positive (d n : ℕ) (X : Fin n → Fin d → ℝ) (mv : Fin d → ℝ)
    (eps : ℝ) (heps : 0 < eps) (hmv : ∀ j, 0 ≤ mv j) :
    (∀ j, 0 < stdDivisor mv eps j)
  ∧ (∀ j, 0 < stdDivisor (var2 n d X) eps j)
  ∧ (∀ (h w : ℕ) (X4 : Fin n → Fin d → Fin h → Fin w → ℝ) (c : Fin d),
      0 < stdDivisor (var4 n d h w X4) eps c) := by
  have hvar2 : ∀ j, 0 ≤ var2 n d X j := fun j =>
    div_nonneg (Finset.sum_nonneg fun i _ => sq_nonneg _) (Nat.cast_nonneg n)
  have hvar4 : ∀ (h w : ℕ) (X4 : Fin n → Fin d → Fin h → Fin w → ℝ) (c : Fin d),
      0 ≤ var4 n d h w X4 c := fun h w X4 c =>
    div_nonneg
      (Finset.sum_nonneg fun i _ => Finset.sum_nonneg fun p _ =>
        Finset.sum_nonneg fun q _ => sq_nonneg _)
      (Nat.cast_nonneg _)
  refine ⟨fun j => ?_, fun j => ?_, fun h w X4 c => ?_⟩
  · exact Real.sqrt_pos.mpr (add_pos_of_nonneg_of_pos (hmv j) heps)
  · exact Real.sqrt_pos.mpr (add_pos_of_nonneg_of_pos (hvar2 j) heps)
  · exact Real.sqrt_pos.mpr (add_pos_of_nonneg_of_pos (hvar4 h w X4 c) heps)

/-- C10 witness: at `eps = 1` and zero moving variance over one feature,
the divisor is positive. -/
theorem C10_witness : 0 < stdDivisor (fun _ : Fin 1 => (0 : ℝ)) 1 0 :=
  (C10_divisor_positive 1 1 (fun _ _ => 0) (fun _ => 0) 1 (by norm_num)
    (fun _ => le_refl 0)).1 0
